import Mathlib

/-!
Verification of the CRUD route handlers in `src/crud.routes.ts`
(repository `Firebase-CRUD-Demo`).

The file embeds the four Express handlers bound by `crudRoutes` as pure
Lean functions.  The Firestore client is an external collaborator of the
repository (spec section 6); its primitives are modelled from the spec as an
executable in-memory document store.  Each handler takes, besides the
request data, an `Option String` describing whether the awaited database
call throws (`some e` = the call throws exception `e`, `none` = the call
completes); the `try/catch` of the source is the `match` on the resulting
`Except`.
-/

set_option autoImplicit false

namespace CrudDemo

/-- A JSON-compatible field value, as stored in a document
(`DocumentData` values are arbitrary JSON values, opaque to the system). -/
inductive JValue where
  | str : String → JValue
  | num : Int → JValue
  | boolean : Bool → JValue
  | null : JValue
  deriving DecidableEq

/-- Document data: an untyped mapping from string keys to JSON values,
represented as an association list (first binding of a key wins). -/
abbrev DocumentData := List (String × JValue)

/-- Field lookup inside one document's data. -/
def lookupField (d : DocumentData) (k : String) : Option JValue :=
  (d.find? (fun kv => kv.1 == k)).map (fun kv => kv.2)

/-- The set of stored documents: entries `(collection, id, data)`. -/
abbrev DocStore := List (String × String × DocumentData)

/-- Look a document up by collection name and document id. -/
def dbLookup (docs : DocStore) (c i : String) : Option DocumentData :=
  (docs.find? (fun e => e.1 == c && e.2.1 == i)).map (fun e => e.2.2)

/-- Remove every entry for `(c, i)` from the store. -/
def dbErase (docs : DocStore) (c i : String) : DocStore :=
  docs.filter (fun e => !(e.1 == c && e.2.1 == i))

/-- Overwrite the document at `(c, i)` with data `d`. -/
def dbSet (docs : DocStore) (c i : String) (d : DocumentData) : DocStore :=
  (c, i, d) :: dbErase docs c i

/-- Merge an update payload into existing document data: fields of the
payload overwrite fields of the old document, other old fields persist. -/
def mergeFields (old upd : DocumentData) : DocumentData :=
  old.filter (fun kv => !(upd.any (fun kv2 => kv2.1 == kv.1))) ++ upd

/-- Modelled from the spec: the external document-database client
(Firestore).  The repository only receives it by dependency injection;
spec section 6 fixes the primitives `collection(name).add(data) -> id`,
`collection(name).doc(id).get() -> \x7bexists, data()\x7d`,
`collection(name).doc(id).update(data)` and
`collection(name).doc(id).delete()`.  Auto-generated ids are modelled by a
counter. -/
structure Firestore where
  docs : DocStore
  nextId : Nat
  deriving DecidableEq

/-- Modelled from the spec: the auto-generated identifier the client
assigns to the `n`-th added document (always non-empty). -/
def autoId (n : Nat) : String := "doc" ++ toString n

/-- Modelled from the spec: `collection(c).add(data)` — store `data` under
a newly assigned id and return that id. -/
def fsAdd (fs : Firestore) (c : String) (data : DocumentData) :
    String × Firestore :=
  let i := autoId fs.nextId
  (i, ⟨dbSet fs.docs c i data, fs.nextId + 1⟩)

/-- Modelled from the spec: `collection(c).doc(i).get()`; `throws = some e`
models a database-layer exception. -/
def fsGet (throws : Option String) (fs : Firestore) (c i : String) :
    Except String (Option DocumentData) :=
  match throws with
  | some e => .error e
  | none => .ok (dbLookup fs.docs c i)

/-- Modelled from the spec: `collection(c).add(data)` with a possible
thrown exception. -/
def fsAddE (throws : Option String) (fs : Firestore) (c : String)
    (data : DocumentData) : Except String (String × Firestore) :=
  match throws with
  | some e => .error e
  | none => .ok (fsAdd fs c data)

/-- Modelled from the spec: `collection(c).doc(i).update(data)` — merges
the payload into an existing document, and throws (the client's own
not-found error) when the document does not exist. -/
def fsUpdateE (throws : Option String) (fs : Firestore) (c i : String)
    (data : DocumentData) : Except String Firestore :=
  match throws with
  | some e => .error e
  | none =>
    match dbLookup fs.docs c i with
    | none => .error "NOT_FOUND: no document to update"
    | some old => .ok ⟨dbSet fs.docs c i (mergeFields old data), fs.nextId⟩

/-- Modelled from the spec: `collection(c).doc(i).delete()` — removes the
document if present; deleting an absent document is not an error. -/
def fsDeleteE (throws : Option String) (fs : Firestore) (c i : String) :
    Except String Firestore :=
  match throws with
  | some e => .error e
  | none => .ok ⟨dbErase fs.docs c i, fs.nextId⟩

/-- An HTTP response body as emitted by the handlers: `res.send(text)`,
`res.json(\x7bid\x7d)` or `res.json(doc.data())`. -/
inductive Body where
  | text : String → Body
  | jsonId : String → Body
  | jsonDoc : DocumentData → Body
  deriving DecidableEq

/-- An HTTP response: status code and body. -/
structure HttpResponse where
  status : Nat
  body : Body
  deriving DecidableEq

/-- The complete outcome of one handler invocation: the single HTTP
response it emits, the database state afterwards, and what it passed to
`console.log`. -/
structure HandlerResult where
  response : HttpResponse
  db : Firestore
  log : List String
  deriving DecidableEq

/-- Handler of `router.post('/create')` (src/crud.routes.ts lines 33-42):
reads `\x7bcollection, data\x7d` from the body, awaits
`db.collection(collection).add(data)`, answers
`201 \x7bid: docRef.id\x7d`; on a thrown error logs it and answers
`500 'Error creating document'`. -/
def createHandler (throws : Option String) (fs : Firestore)
    (collection : String) (data : DocumentData) : HandlerResult :=
  match fsAddE throws fs collection data with
  | .ok (id, fs2) => ⟨⟨201, .jsonId id⟩, fs2, []⟩
  | .error e => ⟨⟨500, .text "Error creating document"⟩, fs, [e]⟩

/-- Handler of `router.get('/read/:collection/:id')` (src/crud.routes.ts
lines 71-83): awaits `db.collection(collection).doc(id).get()`; if the
document does not exist answers `404 'Document not found'`, otherwise
`200` with the document data; on a thrown error logs it and answers
`500 'Error reading document'`. -/
def readHandler (throws : Option String) (fs : Firestore)
    (collection id : String) : HandlerResult :=
  match fsGet throws fs collection id with
  | .ok none => ⟨⟨404, .text "Document not found"⟩, fs, []⟩
  | .ok (some d) => ⟨⟨200, .jsonDoc d⟩, fs, []⟩
  | .error e => ⟨⟨500, .text "Error reading document"⟩, fs, [e]⟩

/-- Handler of `router.put('/update/:collection/:id')` (src/crud.routes.ts
lines 120-131): awaits `docRef.update(data)` and answers
`200 'Document updated'`; on a thrown error logs it and answers
`500 'Error updating document'`. -/
def updateHandler (throws : Option String) (fs : Firestore)
    (collection id : String) (data : DocumentData) : HandlerResult :=
  match fsUpdateE throws fs collection id data with
  | .ok fs2 => ⟨⟨200, .text "Document updated"⟩, fs2, []⟩
  | .error e => ⟨⟨500, .text "Error updating document"⟩, fs, [e]⟩

/-- Handler of `router.delete('/delete/:collection/:id')`
(src/crud.routes.ts lines 158-170): awaits
`db.collection(collection).doc(id).delete()` and answers
`200 'Document deleted'`; on a thrown error logs it and answers
`500 'Error deleting document'`. -/
def deleteHandler (throws : Option String) (fs : Firestore)
    (collection id : String) : HandlerResult :=
  match fsDeleteE throws fs collection id with
  | .ok fs2 => ⟨⟨200, .text "Document deleted"⟩, fs2, []⟩
  | .error e => ⟨⟨500, .text "Error deleting document"⟩, fs, [e]⟩

/-! ## Basic lemmas about the store -/

theorem dbLookup_dbSet_self (docs : DocStore) (c i : String)
    (d : DocumentData) : dbLookup (dbSet docs c i d) c i = some d := by
  simp [dbLookup, dbSet, List.find?]

theorem dbLookup_dbErase_self (docs : DocStore) (c i : String) :
    dbLookup (dbErase docs c i) c i = none := by
  have h : List.find? (fun e => e.1 == c && e.2.1 == i)
      (List.filter (fun e => !(e.1 == c && e.2.1 == i)) docs) = none := by
    rw [List.find?_eq_none]
    intro x hx hp
    have h2 := (List.mem_filter.mp hx).2
    rw [hp] at h2
    exact absurd h2 (by decide)
  unfold dbLookup dbErase
  rw [h]
  rfl

theorem autoId_ne_empty (n : Nat) : autoId n ≠ "" := by
  intro h
  have hl := congrArg String.length h
  simp [autoId, String.length_append] at hl
  exact absurd hl.1 (by decide)

theorem lookupField_cons (kv : String × JValue) (l : DocumentData)
    (k : String) :
    lookupField (kv :: l) k = bif kv.1 == k then some kv.2 else lookupField l k := by
  cases h : kv.1 == k <;> simp [lookupField, List.find?, h]

theorem lookupField_eq_none_of_any_eq_false (d : DocumentData) (k : String)
    (h : d.any (fun kv2 => kv2.1 == k) = false) : lookupField d k = none := by
  have hf : d.find? (fun kv => kv.1 == k) = none :=
    List.find?_eq_none.mpr (fun x hx hp => (List.any_eq_false.mp h) x hx hp)
  unfold lookupField
  rw [hf]
  rfl

theorem lookupField_isSome_of_any_eq_true (d : DocumentData) (k : String)
    (h : d.any (fun kv2 => kv2.1 == k) = true) :
    (lookupField d k).isSome = true := by
  rcases List.any_eq_true.mp h with ⟨x, hx, hp⟩
  cases hf : d.find? (fun kv => kv.1 == k) with
  | none =>
    rw [List.find?_eq_none] at hf
    exact absurd hp (hf x hx)
  | some e => simp [lookupField, hf]

/-- Field-level characterisation of `mergeFields`: the payload's binding
wins when present, otherwise the old document's binding survives. -/
theorem lookupField_mergeFields (old d : DocumentData) (k : String) :
    lookupField (mergeFields old d) k =
      (lookupField d k).orElse (fun _ => lookupField old k) := by
  induction old with
  | nil =>
    cases h : lookupField d k <;>
      rw [show mergeFields [] d = d from rfl, h] <;> rfl
  | cons kv old ih =>
    cases hq : d.any (fun kv2 => kv2.1 == kv.1) with
    | true =>
      have hm : mergeFields (kv :: old) d = mergeFields old d := by
        simp [mergeFields, List.filter_cons, hq]
      rw [hm, ih]
      cases hk : kv.1 == k with
      | true =>
        have hkk : kv.1 = k := eq_of_beq hk
        subst hkk
        have hs := lookupField_isSome_of_any_eq_true d kv.1 hq
        cases hd : lookupField d kv.1 with
        | none => rw [hd] at hs; exact absurd hs (by decide)
        | some v => rfl
      | false =>
        have hc : lookupField (kv :: old) k = lookupField old k := by
          rw [lookupField_cons, hk]
          rfl
        rw [hc]
    | false =>
      have hm : mergeFields (kv :: old) d = kv :: mergeFields old d := by
        simp [mergeFields, List.filter_cons, hq]
      rw [hm]
      cases hk : kv.1 == k with
      | true =>
        have hkk : kv.1 = k := eq_of_beq hk
        have hd : lookupField d k = none := by
          refine lookupField_eq_none_of_any_eq_false d k ?_
          rw [← hkk]
          exact hq
        rw [hd]
        show lookupField (kv :: mergeFields old d) k = lookupField (kv :: old) k
        rw [lookupField_cons, lookupField_cons, hk]
        rfl
      | false =>
        have h1 : lookupField (kv :: mergeFields old d) k =
            lookupField (mergeFields old d) k := by
          rw [lookupField_cons, hk]
          rfl
        rw [h1, ih]
        cases lookupField d k with
        | none =>
          show lookupField old k = lookupField (kv :: old) k
          rw [lookupField_cons, hk]
          rfl
        | some v => rfl

/-! ## Concrete data used by the witnesses (the spec section 8 scenario) -/

/-- The scenario document `\x7bname: "John", age: 30\x7d`. -/
def demoDoc : DocumentData := [("name", JValue.str "John"), ("age", JValue.num 30)]

/-- A database state holding the scenario document at
`("users", "abc123")`. -/
def demoFS : Firestore := ⟨[("users", "abc123", demoDoc)], 0⟩

/-! ## The claims -/

/-- C1: for every operation and every input, if the awaited database call
throws an exception `e`, the handler responds HTTP 500 with that
operation's static message, logs the underlying error, leaves the state
unchanged, and yields a value rather than propagating the exception (the
handlers are total functions); no distinction is made between error
causes (`e` is arbitrary). -/
theorem uniform_500_on_thrown_error (fs : Firestore) (c i : String)
    (d : DocumentData) (e : String) :
    createHandler (some e) fs c d =
      ⟨⟨500, .text "Error creating document"⟩, fs, [e]⟩ ∧
    readHandler (some e) fs c i =
      ⟨⟨500, .text "Error reading document"⟩, fs, [e]⟩ ∧
    updateHandler (some e) fs c i d =
      ⟨⟨500, .text "Error updating document"⟩, fs, [e]⟩ ∧
    deleteHandler (some e) fs c i =
      ⟨⟨500, .text "Error deleting document"⟩, fs, [e]⟩ :=
  ⟨rfl, rfl, rfl, rfl⟩

/-- C2: when the database get call succeeds, Read responds
`404 'Document not found'` exactly when the document is absent, and
otherwise responds 200 with exactly the document's data. -/
theorem read_404_iff_absent (fs : Firestore) (c i : String) :
    ((readHandler none fs c i).response = ⟨404, .text "Document not found"⟩ ↔
      dbLookup fs.docs c i = none) ∧
    (readHandler none fs c i).response =
      (match dbLookup fs.docs c i with
       | none => ⟨404, Body.text "Document not found"⟩
       | some d => ⟨200, Body.jsonDoc d⟩) := by
  cases h : dbLookup fs.docs c i <;> simp [readHandler, fsGet, h]

/-- C3: when the database add call succeeds, Create responds 201 with body
`\x7bid: i\x7d` where `i` is exactly the identifier the database client
assigned to the added document. -/
theorem create_201_with_assigned_id (fs : Firestore) (c : String)
    (d : DocumentData) :
    (createHandler none fs c d).response =
      ⟨201, .jsonId (fsAdd fs c d).1⟩ := rfl

/-- C4: a successful Create returns 201 with a non-empty id, and a Read of
that id on the resulting database state returns 200 with exactly the data
that was stored. -/
theorem create_then_read_roundtrip (fs : Firestore) (c : String)
    (d : DocumentData) :
    (createHandler none fs c d).response.status = 201 ∧
    ∃ i, (createHandler none fs c d).response.body = Body.jsonId i ∧
      i ≠ "" ∧
      (readHandler none (createHandler none fs c d).db c i).response =
        ⟨200, Body.jsonDoc d⟩ := by
  refine ⟨rfl, autoId fs.nextId, rfl, autoId_ne_empty _, ?_⟩
  have h : dbLookup (createHandler none fs c d).db.docs c
      (autoId fs.nextId) = some d :=
    dbLookup_dbSet_self fs.docs c (autoId fs.nextId) d
  simp [readHandler, fsGet, h]

/-- C5: Update of an existing document succeeds with
`200 'Document updated'` and a subsequent Read returns the old document's
fields merged with and overwritten by the payload's fields. -/
theorem update_then_read_merged (fs : Firestore) (c i : String)
    (data old : DocumentData) (h : dbLookup fs.docs c i = some old) :
    (updateHandler none fs c i data).response =
      ⟨200, .text "Document updated"⟩ ∧
    (readHandler none (updateHandler none fs c i data).db c i).response =
      ⟨200, Body.jsonDoc (mergeFields old data)⟩ ∧
    ∀ k, lookupField (mergeFields old data) k =
      (lookupField data k).orElse (fun _ => lookupField old k) := by
  have hu : updateHandler none fs c i data =
      ⟨⟨200, .text "Document updated"⟩,
        ⟨dbSet fs.docs c i (mergeFields old data), fs.nextId⟩, []⟩ := by
    simp [updateHandler, fsUpdateE, h]
  refine ⟨by rw [hu], ?_, fun k => lookupField_mergeFields old data k⟩
  rw [hu]
  have h2 := dbLookup_dbSet_self fs.docs c i (mergeFields old data)
  simp [readHandler, fsGet, h2]

/-- C5 witness: the spec scenario — `\x7bname: "John", age: 30\x7d`
updated with `\x7bage: 31\x7d` reads back as
`\x7bname: "John", age: 31\x7d`. -/
theorem update_then_read_merged_witness :
    dbLookup demoFS.docs "users" "abc123" = some demoDoc ∧
    ((updateHandler none demoFS "users" "abc123"
        [("age", JValue.num 31)]).response =
      ⟨200, .text "Document updated"⟩ ∧
    (readHandler none (updateHandler none demoFS "users" "abc123"
        [("age", JValue.num 31)]).db "users" "abc123").response =
      ⟨200, Body.jsonDoc (mergeFields demoDoc [("age", JValue.num 31)])⟩ ∧
    ∀ k, lookupField (mergeFields demoDoc [("age", JValue.num 31)]) k =
      (lookupField [("age", JValue.num 31)] k).orElse
        (fun _ => lookupField demoDoc k)) :=
  ⟨by decide,
   update_then_read_merged demoFS "users" "abc123"
     [("age", JValue.num 31)] demoDoc (by decide)⟩

/-- C6: Delete of an existing document succeeds with
`200 'Document deleted'` and a subsequent Read of the same
`(collection, id)` returns `404 'Document not found'`. -/
theorem delete_then_read_404 (fs : Firestore) (c i : String)
    (h : ∃ d, dbLookup fs.docs c i = some d) :
    (deleteHandler none fs c i).response = ⟨200, .text "Document deleted"⟩ ∧
    (readHandler none (deleteHandler none fs c i).db c i).response =
      ⟨404, .text "Document not found"⟩ := by
  refine ⟨rfl, ?_⟩
  have h2 : dbLookup (deleteHandler none fs c i).db.docs c i = none :=
    dbLookup_dbErase_self fs.docs c i
  simp [readHandler, fsGet, h2]

/-- C6 witness: deleting the scenario document makes the subsequent read
return 404. -/
theorem delete_then_read_404_witness :
    (∃ d, dbLookup demoFS.docs "users" "abc123" = some d) ∧
    ((deleteHandler none demoFS "users" "abc123").response =
      ⟨200, .text "Document deleted"⟩ ∧
    (readHandler none (deleteHandler none demoFS "users" "abc123").db
        "users" "abc123").response = ⟨404, .text "Document not found"⟩) :=
  ⟨⟨demoDoc, by decide⟩,
   delete_then_read_404 demoFS "users" "abc123" ⟨demoDoc, by decide⟩⟩

/-- C7: the document data of the request body is handed to the database
client exactly as received, with no field inspected, added, removed or
transformed: the document a Create stores is exactly `d`, and the
document an Update leaves is the old one merged with exactly `d` (every
binding of `d` is stored verbatim). -/
theorem body_data_passed_unchanged (fs : Firestore) (c i : String)
    (d old : DocumentData) (h : dbLookup fs.docs c i = some old) :
    dbLookup (createHandler none fs c d).db.docs c (fsAdd fs c d).1 =
      some d ∧
    dbLookup (updateHandler none fs c i d).db.docs c i =
      some (mergeFields old d) ∧
    ∀ k v, lookupField d k = some v →
      lookupField (mergeFields old d) k = some v := by
  refine ⟨dbLookup_dbSet_self fs.docs c (autoId fs.nextId) d, ?_, ?_⟩
  · simp [updateHandler, fsUpdateE, h]
    exact dbLookup_dbSet_self fs.docs c i (mergeFields old d)
  · intro k v hk
    rw [lookupField_mergeFields, hk]
    rfl

/-- C7 witness: at the scenario state the created document is stored
verbatim and the updated document keeps the payload's bindings verbatim. -/
theorem body_data_passed_unchanged_witness :
    dbLookup demoFS.docs "users" "abc123" = some demoDoc ∧
    (dbLookup (createHandler none demoFS "users"
        [("age", JValue.num 31)]).db.docs "users"
        (fsAdd demoFS "users" [("age", JValue.num 31)]).1 =
      some [("age", JValue.num 31)] ∧
    dbLookup (updateHandler none demoFS "users" "abc123"
        [("age", JValue.num 31)]).db.docs "users" "abc123" =
      some (mergeFields demoDoc [("age", JValue.num 31)]) ∧
    ∀ k v, lookupField [("age", JValue.num 31)] k = some v →
      lookupField (mergeFields demoDoc [("age", JValue.num 31)]) k =
        some v) :=
  ⟨by decide,
   body_data_passed_unchanged demoFS "users" "abc123"
     [("age", JValue.num 31)] demoDoc (by decide)⟩

/-- C8: each handler makes exactly one state-affecting database call, so
whenever an operation answers 500 (its single call threw, or Update's
document was absent), the database state afterwards equals the state
before the request. -/
theorem status_500_leaves_state_unchanged (throws : Option String)
    (fs : Firestore) (c i : String) (d : DocumentData) :
    ((createHandler throws fs c d).response.status = 500 →
      (createHandler throws fs c d).db = fs) ∧
    ((readHandler throws fs c i).response.status = 500 →
      (readHandler throws fs c i).db = fs) ∧
    ((updateHandler throws fs c i d).response.status = 500 →
      (updateHandler throws fs c i d).db = fs) ∧
    ((deleteHandler throws fs c i).response.status = 500 →
      (deleteHandler throws fs c i).db = fs) := by
  cases throws with
  | some e => exact ⟨fun _ => rfl, fun _ => rfl, fun _ => rfl, fun _ => rfl⟩
  | none =>
    refine ⟨?_, ?_, ?_, ?_⟩
    · intro h
      simp [createHandler, fsAddE] at h
    · intro h
      cases hl : dbLookup fs.docs c i <;> simp [readHandler, fsGet, hl] at h
    · cases hl : dbLookup fs.docs c i with
      | none => intro h2; simp [updateHandler, fsUpdateE, hl]
      | some old => intro h2; simp [updateHandler, fsUpdateE, hl] at h2
    · intro h
      simp [deleteHandler, fsDeleteE] at h

/-- C8 witness: a Create whose database call throws answers 500 and adds
no document — the state is exactly the pre-state. -/
theorem status_500_leaves_state_unchanged_witness :
    (createHandler (some "network down") demoFS "users"
        [("age", JValue.num 31)]).response.status = 500 ∧
    (createHandler (some "network down") demoFS "users"
        [("age", JValue.num 31)]).db = demoFS :=
  ⟨by decide,
   (status_500_leaves_state_unchanged (some "network down") demoFS "users"
      "abc123" [("age", JValue.num 31)]).1 (by decide)⟩

/-- C9: Read never changes the database state, whether it answers 200,
404 or 500. -/
theorem read_leaves_state_unchanged (throws : Option String)
    (fs : Firestore) (c i : String) :
    (readHandler throws fs c i).db = fs := by
  cases throws with
  | some e => rfl
  | none => cases hl : dbLookup fs.docs c i <;> simp [readHandler, fsGet, hl]

/-- C10: the Delete handler never checks existence, so when the document
is absent and the client's delete call does not throw, Delete still
answers `200 'Document deleted'`; the response is the same one an
existing document would get, making the two cases indistinguishable at
the HTTP interface. -/
theorem delete_nonexistent_200 (fs : Firestore) (c i : String)
    (h : dbLookup fs.docs c i = none) :
    (deleteHandler none fs c i).response = ⟨200, .text "Document deleted"⟩ ∧
    ∀ fs2 : Firestore,
      (deleteHandler none fs2 c i).response =
        (deleteHandler none fs c i).response :=
  ⟨rfl, fun _ => rfl⟩

/-- C10 witness: deleting a document that was never created answers 200. -/
theorem delete_nonexistent_200_witness :
    dbLookup demoFS.docs "users" "missing" = none ∧
    ((deleteHandler none demoFS "users" "missing").response =
      ⟨200, .text "Document deleted"⟩ ∧
    ∀ fs2 : Firestore,
      (deleteHandler none fs2 "users" "missing").response =
        (deleteHandler none demoFS "users" "missing").response) :=
  ⟨by decide, delete_nonexistent_200 demoFS "users" "missing" (by decide)⟩

end CrudDemo
